import Mathlib

/-!
Verification of the HuggingFace wrapper scripts of this repository.

The repository consists of three Python modules:

* `huggingface_download.py` defines `download(repo_id, repo_type,
  etag_timeout, revision=None, **kwargs)`, which forwards its arguments
  to the external `snapshot_download` and returns its result.
* `huggingface_upload.py` defines `upload(folder_path, repo_id,
  repo_type, revision=None, **kwargs)`, which forwards its arguments to
  the external `upload_folder` on a fresh `HfApi` and returns nothing.
* `hfUtils.py` is a driver: it hardcodes parameters, prints a starting
  message, prints the `HF_ENDPOINT` environment variable, calls
  `download`, and prints the resulting path.

We embed the wrappers shallowly.  A Python value appearing as an
argument is a `Value` (string, integer, or `None`).  A call into the
external client is a `Call`: the callee name together with the keyword
arguments in the order of the source call site.  Each wrapper is a Lean
function parameterised by the external client, modelled as a function
from `Call` to `Except PyErr Value` (an exception raised by the client
is `Except.error`).  The wrapper returns the trace of client calls it
performs together with its own result, so that "invokes exactly once
with exactly these arguments" is a statement about the trace.
-/

/-- A Python value used as an argument or result in this codebase:
a string, an integer, or `None`. -/
inductive Value where
  | str : String → Value
  | int : Int → Value
  | none : Value
deriving DecidableEq, Repr

/-- How a `Value` renders inside a Python f-string (`str()`). -/
def Value.toDisplay : Value → String
  | .str s => s
  | .int n => toString n
  | .none => "None"

/-- A Python exception: `KeyError` from an environment lookup, or an
arbitrary exception raised inside the external hub client. -/
inductive PyErr where
  | keyError : String → PyErr
  | libError : String → PyErr
deriving DecidableEq, Repr

/-- One call into the external hub client library: the function that is
called, and its keyword arguments in call-site order. -/
structure Call where
  func : String
  kwargs : List (String × Value)
deriving DecidableEq, Repr

/-- The default of the `revision=None` parameter of `download` in
`huggingface_download.py`: a caller who omits `revision` calls the
wrapper with this value. -/
def download_default_revision : Value := Value.none

/-- The default of the `revision=None` parameter of `upload` in
`huggingface_upload.py`. -/
def upload_default_revision : Value := Value.none

/-- The call that `download` makes: `snapshot_download(repo_id=repo_id,
revision=revision, repo_type=repo_type, etag_timeout=etag_timeout,
**kwargs)` (source order of `huggingface_download.py`, lines 31-37). -/
def downloadCall (repo_id repo_type etag_timeout revision : Value)
    (kwargs : List (String × Value)) : Call :=
  { func := "snapshot_download",
    kwargs := [("repo_id", repo_id), ("revision", revision),
               ("repo_type", repo_type), ("etag_timeout", etag_timeout)]
              ++ kwargs }

/-- `download` of `huggingface_download.py`: forwards its arguments to
`snapshot_download` and returns that call's result.  The first component
is the trace of client calls the wrapper performs. -/
def download (snapshot_download : Call → Except PyErr Value)
    (repo_id repo_type etag_timeout revision : Value)
    (kwargs : List (String × Value)) :
    List Call × Except PyErr Value :=
  let c := downloadCall repo_id repo_type etag_timeout revision kwargs
  ([c], snapshot_download c)

/-- The call that `upload` makes: `api.upload_folder(folder_path=
folder_path, repo_id=repo_id, revision=revision, repo_type=repo_type,
**kwargs)` (source order of `huggingface_upload.py`, lines 29-35). -/
def uploadCall (folder_path repo_id repo_type revision : Value)
    (kwargs : List (String × Value)) : Call :=
  { func := "upload_folder",
    kwargs := [("folder_path", folder_path), ("repo_id", repo_id),
               ("revision", revision), ("repo_type", repo_type)]
              ++ kwargs }

/-- `upload` of `huggingface_upload.py`: forwards its arguments to
`upload_folder` and returns `None` (the Python function body has no
`return`, so the client's confirmation object is discarded).  The first
component is the trace of client calls the wrapper performs. -/
def upload (upload_folder : Call → Except PyErr Value)
    (folder_path repo_id repo_type revision : Value)
    (kwargs : List (String × Value)) :
    List Call × Except PyErr Value :=
  let c := uploadCall folder_path repo_id repo_type revision kwargs
  ([c], (upload_folder c).map (fun _ => Value.none))

/-- `MY_REPO` of hfUtils.py. -/
def MY_REPO : String := "admin"

/-- `MY_TYPE` of hfUtils.py. -/
def MY_TYPE : String := "model"

/-- `MY_REVISION` of hfUtils.py. -/
def MY_REVISION : String := "main"

/-- `MY_ETAG_TIMEOUT` of hfUtils.py. -/
def MY_ETAG_TIMEOUT : Int := 86400

/-- Observable outcome of one run of the hfUtils.py driver script. -/
structure RunResult where
  printed : List String
  envReads : List String
  calls : List Call
  error : Option PyErr
deriving DecidableEq, Repr

/-- The hfUtils.py driver, over an environment (a partial map from
variable names to values) and the external client.  It prints the
starting message, reads `HF_ENDPOINT` (a missing variable raises
`KeyError` inside the f-string, before `download` is called), prints the
endpoint line, runs `download` with the hardcoded parameters, and on
success prints the completion line with the returned path. -/
def hfUtilsRun (env : String → Option String)
    (snapshot_download : Call → Except PyErr Value) : RunResult :=
  let line1 := "Starting download of " ++ MY_REPO ++ " (revision: "
               ++ MY_REVISION ++ ")..."
  match env "HF_ENDPOINT" with
  | Option.none =>
      { printed := [line1], envReads := ["HF_ENDPOINT"], calls := [],
        error := some (PyErr.keyError "HF_ENDPOINT") }
  | Option.some endp =>
      let line2 := "From endpoint: " ++ endp
      let r := download snapshot_download (Value.str MY_REPO)
                 (Value.str MY_TYPE) (Value.int MY_ETAG_TIMEOUT)
                 (Value.str MY_REVISION) []
      match r.2 with
      | Except.error e =>
          { printed := [line1, line2], envReads := ["HF_ENDPOINT"],
            calls := r.1, error := some e }
      | Except.ok model_path =>
          { printed := [line1, line2,
              "Download complete! Model saved to: "
              ++ model_path.toDisplay],
            envReads := ["HF_ENDPOINT"], calls := r.1,
            error := Option.none }

/-- A client that always reports a fixed local path (witness fixture). -/
def fixedPathClient : Call → Except PyErr Value :=
  fun _ => Except.ok (Value.str "/path/to/downloaded/model")

/-- A client that always raises (witness fixture). -/
def errClient : Call → Except PyErr Value :=
  fun _ => Except.error (PyErr.libError "network error")

/-- A client that returns a confirmation object (witness fixture). -/
def confirmClient : Call → Except PyErr Value :=
  fun _ => Except.ok (Value.str "CommitInfo")

/-- An environment defining only `HF_ENDPOINT` (witness fixture). -/
def envWithEndpoint (v : String) : String → Option String :=
  fun k => if k = "HF_ENDPOINT" then Option.some v else Option.none

/-- The empty environment (witness fixture). -/
def emptyEnv : String → Option String := fun _ => Option.none

/-- C1: for every repository id, repository type, etag timeout, and
revision supplied to `download`, the wrapper calls `snapshot_download`
exactly once, and that call carries exactly the four supplied values,
unmodified, under their own keyword names. -/
theorem download_forwards_exact_args
    (snapshot_download : Call → Except PyErr Value)
    (repo_id repo_type etag_timeout revision : Value)
    (kwargs : List (String × Value)) :
    (download snapshot_download repo_id repo_type etag_timeout revision
        kwargs).1.length = 1 ∧
    ∀ c ∈ (download snapshot_download repo_id repo_type etag_timeout
        revision kwargs).1,
      c.func = "snapshot_download" ∧
      c.kwargs.lookup "repo_id" = some repo_id ∧
      c.kwargs.lookup "repo_type" = some repo_type ∧
      c.kwargs.lookup "etag_timeout" = some etag_timeout ∧
      c.kwargs.lookup "revision" = some revision := by
  refine ⟨rfl, ?_⟩
  intro c hc
  simp only [download, downloadCall, List.mem_singleton] at hc
  subst hc
  refine ⟨rfl, ?_, ?_, ?_, ?_⟩ <;> simp [List.lookup]

/-- C2: for every folder path, repository id, repository type, and
revision supplied to `upload`, the wrapper calls `upload_folder`
exactly once, and that call carries exactly the four supplied values,
unmodified, under their own keyword names. -/
theorem upload_forwards_exact_args
    (upload_folder : Call → Except PyErr Value)
    (folder_path repo_id repo_type revision : Value)
    (kwargs : List (String × Value)) :
    (upload upload_folder folder_path repo_id repo_type revision
        kwargs).1.length = 1 ∧
    ∀ c ∈ (upload upload_folder folder_path repo_id repo_type revision
        kwargs).1,
      c.func = "upload_folder" ∧
      c.kwargs.lookup "folder_path" = some folder_path ∧
      c.kwargs.lookup "repo_id" = some repo_id ∧
      c.kwargs.lookup "repo_type" = some repo_type ∧
      c.kwargs.lookup "revision" = some revision := by
  refine ⟨rfl, ?_⟩
  intro c hc
  simp only [upload, uploadCall, List.mem_singleton] at hc
  subst hc
  refine ⟨rfl, ?_, ?_, ?_, ?_⟩ <;> simp [List.lookup]

/-- C3: a caller who omits `revision` calls either wrapper with the
Python default `None`, and the resulting client call carries
`revision = None`, never the empty string. -/
theorem omitted_revision_forwards_none
    (snapshot_download upload_folder : Call → Except PyErr Value)
    (repo_id repo_type etag_timeout folder_path : Value)
    (kwargs : List (String × Value)) :
    (∀ c ∈ (download snapshot_download repo_id repo_type etag_timeout
        download_default_revision kwargs).1,
       c.kwargs.lookup "revision" = some Value.none ∧
       c.kwargs.lookup "revision" ≠ some (Value.str "")) ∧
    (∀ c ∈ (upload upload_folder folder_path repo_id repo_type
        upload_default_revision kwargs).1,
       c.kwargs.lookup "revision" = some Value.none ∧
       c.kwargs.lookup "revision" ≠ some (Value.str "")) := by
  constructor
  · intro c hc
    simp only [download, downloadCall, download_default_revision,
      List.mem_singleton] at hc
    subst hc
    constructor <;> simp [List.lookup]
  · intro c hc
    simp only [upload, uploadCall, upload_default_revision,
      List.mem_singleton] at hc
    subst hc
    constructor <;> simp [List.lookup]

/-- C4: every additional keyword parameter supplied to `download` or
`upload` appears in the client call with the same name and value, and
the portion of the call after the four named arguments is exactly the
supplied kwargs list: nothing is filtered, renamed, or altered. -/
theorem kwargs_passthrough
    (snapshot_download upload_folder : Call → Except PyErr Value)
    (repo_id repo_type etag_timeout folder_path revision : Value)
    (kwargs : List (String × Value)) :
    (∀ c ∈ (download snapshot_download repo_id repo_type etag_timeout
        revision kwargs).1,
       (∀ p ∈ kwargs, p ∈ c.kwargs) ∧ c.kwargs.drop 4 = kwargs) ∧
    (∀ c ∈ (upload upload_folder folder_path repo_id repo_type revision
        kwargs).1,
       (∀ p ∈ kwargs, p ∈ c.kwargs) ∧ c.kwargs.drop 4 = kwargs) := by
  constructor
  · intro c hc
    simp only [download, downloadCall, List.mem_singleton] at hc
    subst hc
    refine ⟨fun p hp => ?_, rfl⟩
    simp [hp]
  · intro c hc
    simp only [upload, uploadCall, List.mem_singleton] at hc
    subst hc
    refine ⟨fun p hp => ?_, rfl⟩
    simp [hp]

/-- C5: an exception raised by the external client during a `download`
or `upload` call propagates unchanged to the wrapper's caller; neither
wrapper catches, translates, retries, or wraps it. -/
theorem wrappers_propagate_client_exceptions
    (snapshot_download upload_folder : Call → Except PyErr Value)
    (folder_path repo_id repo_type etag_timeout revision : Value)
    (kwargs : List (String × Value)) (ed eu : PyErr)
    (hd : snapshot_download
        (downloadCall repo_id repo_type etag_timeout revision kwargs)
        = Except.error ed)
    (hu : upload_folder
        (uploadCall folder_path repo_id repo_type revision kwargs)
        = Except.error eu) :
    (download snapshot_download repo_id repo_type etag_timeout revision
        kwargs).2 = Except.error ed ∧
    (upload upload_folder folder_path repo_id repo_type revision
        kwargs).2 = Except.error eu := by
  constructor
  · simp [download, hd]
  · simp [upload, hu, Except.map]

/-- Witness for C5 at a concrete failing client. -/
theorem wrappers_propagate_client_exceptions_witness :
    (download errClient (Value.str "org/model") (Value.str "model")
        (Value.int 86400) Value.none []).2
      = Except.error (PyErr.libError "network error") ∧
    (upload errClient (Value.str "/tmp/model") (Value.str "org/model")
        (Value.str "model") Value.none []).2
      = Except.error (PyErr.libError "network error") :=
  wrappers_propagate_client_exceptions errClient errClient
    (Value.str "/tmp/model") (Value.str "org/model") (Value.str "model")
    (Value.int 86400) Value.none [] (PyErr.libError "network error")
    (PyErr.libError "network error") rfl rfl

/-- C6: whatever path the external fetch reports, `download` returns
exactly that value, untransformed. -/
theorem download_returns_client_path
    (snapshot_download : Call → Except PyErr Value)
    (repo_id repo_type etag_timeout revision : Value)
    (kwargs : List (String × Value)) (p : Value)
    (h : snapshot_download
        (downloadCall repo_id repo_type etag_timeout revision kwargs)
        = Except.ok p) :
    (download snapshot_download repo_id repo_type etag_timeout revision
        kwargs).2 = Except.ok p := by
  simp [download, h]

/-- Witness for C6 at the spec scenario: repo id bert-base-uncased,
type model, etag timeout 86400, revision main. -/
theorem download_returns_client_path_witness :
    (download fixedPathClient (Value.str "bert-base-uncased")
        (Value.str "model") (Value.int 86400) (Value.str "main") []).2
      = Except.ok (Value.str "/path/to/downloaded/model") :=
  download_returns_client_path fixedPathClient
    (Value.str "bert-base-uncased") (Value.str "model")
    (Value.int 86400) (Value.str "main") []
    (Value.str "/path/to/downloaded/model") rfl

/-- C7: on a successful call `upload` returns Python `None`: the
confirmation object produced by `upload_folder` is discarded. -/
theorem upload_discards_confirmation
    (upload_folder : Call → Except PyErr Value)
    (folder_path repo_id repo_type revision : Value)
    (kwargs : List (String × Value)) (conf : Value)
    (h : upload_folder
        (uploadCall folder_path repo_id repo_type revision kwargs)
        = Except.ok conf) :
    (upload upload_folder folder_path repo_id repo_type revision
        kwargs).2 = Except.ok Value.none := by
  simp [upload, h, Except.map]

/-- Witness for C7 at a client that returns a confirmation object. -/
theorem upload_discards_confirmation_witness :
    (upload confirmClient (Value.str "/tmp/model")
        (Value.str "org/model") (Value.str "model") Value.none []).2
      = Except.ok Value.none :=
  upload_discards_confirmation confirmClient (Value.str "/tmp/model")
    (Value.str "org/model") (Value.str "model") Value.none []
    (Value.str "CommitInfo") rfl

/-- C8: whenever `HF_ENDPOINT` is set, the driver invokes `download`
exactly once with the hardcoded values repo id "admin", type "model",
etag timeout 86400, revision "main", reads exactly the one environment
variable `HF_ENDPOINT`, and prints its progress messages. -/
theorem driver_downloads_once_with_hardcoded_values
    (env : String → Option String)
    (client : Call → Except PyErr Value) (endp : String)
    (h : env "HF_ENDPOINT" = Option.some endp) :
    (hfUtilsRun env client).calls =
      [downloadCall (Value.str "admin") (Value.str "model")
        (Value.int 86400) (Value.str "main") []] ∧
    (hfUtilsRun env client).envReads = ["HF_ENDPOINT"] ∧
    (hfUtilsRun env client).printed.take 2 =
      ["Starting download of admin (revision: main)...",
       "From endpoint: " ++ endp] := by
  simp only [hfUtilsRun, h, MY_REPO, MY_TYPE, MY_REVISION,
    MY_ETAG_TIMEOUT]
  cases hc : (download client (Value.str "admin") (Value.str "model")
      (Value.int 86400) (Value.str "main") []).2 <;>
    simp [hc, download]

/-- Witness for C8 at a concrete environment and client. -/
theorem driver_downloads_once_witness :
    (hfUtilsRun (envWithEndpoint "https://jfrog.example")
        fixedPathClient).calls =
      [downloadCall (Value.str "admin") (Value.str "model")
        (Value.int 86400) (Value.str "main") []] ∧
    (hfUtilsRun (envWithEndpoint "https://jfrog.example")
        fixedPathClient).envReads = ["HF_ENDPOINT"] ∧
    (hfUtilsRun (envWithEndpoint "https://jfrog.example")
        fixedPathClient).printed.take 2 =
      ["Starting download of admin (revision: main)...",
       "From endpoint: https://jfrog.example"] :=
  driver_downloads_once_with_hardcoded_values
    (envWithEndpoint "https://jfrog.example") fixedPathClient
    "https://jfrog.example" rfl

/-- C9: if `HF_ENDPOINT` is absent, the driver raises `KeyError` during
the display step, having printed only the starting line, and `download`
is never invoked. -/
theorem missing_endpoint_raises_before_download
    (env : String → Option String)
    (client : Call → Except PyErr Value)
    (h : env "HF_ENDPOINT" = Option.none) :
    (hfUtilsRun env client).error
      = some (PyErr.keyError "HF_ENDPOINT") ∧
    (hfUtilsRun env client).calls = [] ∧
    (hfUtilsRun env client).printed =
      ["Starting download of admin (revision: main)..."] := by
  simp [hfUtilsRun, h, MY_REPO, MY_REVISION]

/-- Witness for C9 at the empty environment. -/
theorem missing_endpoint_witness :
    (hfUtilsRun emptyEnv fixedPathClient).error
      = some (PyErr.keyError "HF_ENDPOINT") ∧
    (hfUtilsRun emptyEnv fixedPathClient).calls = [] ∧
    (hfUtilsRun emptyEnv fixedPathClient).printed =
      ["Starting download of admin (revision: main)..."] :=
  missing_endpoint_raises_before_download emptyEnv fixedPathClient rfl

/-- C10: two driver runs whose environments differ only in the (set)
value of `HF_ENDPOINT`, against the same client, make identical
download calls: the endpoint value influences only the display. -/
theorem endpoint_value_influences_only_display
    (env1 env2 : String → Option String)
    (client : Call → Except PyErr Value)
    (hagree : ∀ k, k ≠ "HF_ENDPOINT" → env1 k = env2 k)
    (e1 e2 : String)
    (h1 : env1 "HF_ENDPOINT" = Option.some e1)
    (h2 : env2 "HF_ENDPOINT" = Option.some e2) :
    (hfUtilsRun env1 client).calls = (hfUtilsRun env2 client).calls := by
  simp only [hfUtilsRun, h1, h2]
  cases hc : (download client (Value.str MY_REPO) (Value.str MY_TYPE)
      (Value.int MY_ETAG_TIMEOUT) (Value.str MY_REVISION) []).2 <;>
    simp [hc]

/-- Witness for C10 at two concrete environments differing only in the
endpoint value. -/
theorem endpoint_noninterference_witness :
    (hfUtilsRun (envWithEndpoint "https://a.example")
        fixedPathClient).calls =
    (hfUtilsRun (envWithEndpoint "https://b.example")
        fixedPathClient).calls :=
  endpoint_value_influences_only_display
    (envWithEndpoint "https://a.example")
    (envWithEndpoint "https://b.example") fixedPathClient
    (fun k hk => by simp [envWithEndpoint, hk])
    "https://a.example" "https://b.example" rfl rfl
